import Mathlib

/-!
# Verification of the USCIS officer-report parser

Shallow embedding of `src/app/lib/scoring/officer-scorer.ts` (the report
parser) together with the type/criteria definitions from the repository's
type module.  JavaScript strings are modelled as `List Char`; every regular
expression of the source is hand-compiled to an equivalent deterministic
scanning function (leftmost-match semantics, with the backtracking of the
original pattern made explicit where it can fire).  All functions are total
and executable.
-/

/-- JavaScript strings, modelled as lists of characters. -/
abbrev Txt := List Char

/-- ASCII lower-casing of a character (JS `toLowerCase` on the ASCII range). -/
def lcChar (c : Char) : Char :=
  if 65 ≤ c.toNat ∧ c.toNat ≤ 90 then Char.ofNat (c.toNat + 32) else c

/-- Lower-case a whole string. -/
def lcTxt (s : Txt) : Txt := s.map lcChar

/-- JS regex `\d`: ASCII decimal digit. -/
def isDigitC (c : Char) : Bool := 48 ≤ c.toNat && c.toNat ≤ 57

/-- JS regex `\s` / `String.trim` whitespace set. -/
def isSpaceC (c : Char) : Bool :=
  let n := c.toNat
  n == 9 || n == 10 || n == 11 || n == 12 || n == 13 || n == 32 ||
  n == 0xa0 || n == 0x1680 || (Nat.ble 0x2000 n && Nat.ble n 0x200a) ||
  n == 0x2028 || n == 0x2029 || n == 0x202f || n == 0x205f ||
  n == 0x3000 || n == 0xfeff

/-- JS line terminators (the characters excluded by regex `.`). -/
def isLineTerm (c : Char) : Bool :=
  c == '\n' || c == '\r' || c.toNat == 0x2028 || c.toNat == 0x2029

/-- Characters matched by the class `[:\s]`. -/
def isColonSpace (c : Char) : Bool := c == ':' || isSpaceC c

/-- Match a literal pattern case-insensitively at the head, returning the rest. -/
def stripCI : Txt → Txt → Option Txt
  | [], s => some s
  | _ :: _, [] => none
  | p :: ps, c :: cs => if lcChar p == lcChar c then stripCI ps cs else none

/-- Match a literal pattern case-sensitively at the head, returning the rest. -/
def stripCS : Txt → Txt → Option Txt
  | [], s => some s
  | _ :: _, [] => none
  | p :: ps, c :: cs => if p == c then stripCS ps cs else none

/-- Drop a (possibly empty) greedy run of whitespace: regex `\s*`. -/
def dropSpaces (s : Txt) : Txt := s.dropWhile isSpaceC

/-- Drop a greedy run of `[:\s]` characters: regex `[:\s]*`. -/
def dropColonSpaces (s : Txt) : Txt := s.dropWhile isColonSpace

/-- Regex `(\d+)`: greedy non-empty digit run, returned as its numeric value. -/
def matchDigits1 (s : Txt) : Option (Nat × Txt) :=
  let ds := s.takeWhile isDigitC
  if ds.isEmpty then none
  else some (ds.foldl (fun a c => a * 10 + (c.toNat - 48)) 0, s.dropWhile isDigitC)

/-- Leftmost-match search: try the matcher at every suffix, left to right
(the behaviour of an unanchored JS regex). -/
def findFirstMatch {α : Type} (f : Txt → Option α) : Txt → Option α
  | [] => f []
  | c :: t =>
    match f (c :: t) with
    | some a => some a
    | none => findFirstMatch f t

/-- `needle.isPrefixOf hay` for every suffix: JS `String.includes`. -/
def includesTxt (hay needle : Txt) : Bool :=
  match hay with
  | [] => needle.isEmpty
  | _ :: t => needle.isPrefixOf hay || includesTxt t needle

/-- JS `String.trim`. -/
def trimTxt (s : Txt) : Txt :=
  ((s.dropWhile isSpaceC).reverse.dropWhile isSpaceC).reverse

/-- JS `String.split('\n')`. -/
def splitLines : Txt → List Txt
  | [] => [[]]
  | '\n' :: t => [] :: splitLines t
  | c :: t =>
    match splitLines t with
    | l :: ls => (c :: l) :: ls
    | [] => [[c]]

/-- Decimal digit character. -/
def digitChar (n : Nat) : Char := Char.ofNat (48 + n)

/-- Fuelled decimal rendering helper. -/
def natDigitsAux : Nat → Nat → Txt
  | 0, _ => []
  | _ + 1, 0 => []
  | f + 1, n + 1 => natDigitsAux f ((n + 1) / 10) ++ [digitChar ((n + 1) % 10)]

/-- Decimal digit string of a natural number (the text interpolated into the
per-criterion regex patterns). -/
def natDigits (n : Nat) : Txt := if n = 0 then ['0'] else natDigitsAux n n

/-- Regex `[^|]*\|`: skip to just past the first pipe, failing if none. -/
def skipToPipe : Txt → Option Txt
  | [] => none
  | '|' :: t => some t
  | _ :: t => skipToPipe t

/-- Regex `\*?`: optionally consume one literal asterisk. -/
def optStar : Txt → Txt
  | '*' :: t => t
  | s => s

/-- Match at one position the pattern
`\*\*TOTAL\*\*[^|]*\|[^|]*\|[^|]*\|\s*\*?\*?(\d+)\s*\/\s*100` (flag `i`). -/
def matchTotalAt (s : Txt) : Option Nat := do
  let s ← stripCI ("**TOTAL**".toList) s
  let s ← skipToPipe s
  let s ← skipToPipe s
  let s ← skipToPipe s
  let s := dropSpaces s
  let s := optStar (optStar s)
  let (n, s) ← matchDigits1 s
  let s := dropSpaces s
  let s ← stripCS ("/".toList) s
  let s := dropSpaces s
  let _ ← stripCS ("100".toList) s
  pure n

/-- First match of the bolded-TOTAL scoring-matrix pattern. -/
def scoreTotalMatch (report : Txt) : Option Nat := findFirstMatch matchTotalAt report

/-- Match at one position the pattern
`overall\s+score[:\s]*(\d+)\s*(?:\/\s*100)?` (flag `i`); the optional tail
never affects success or the capture. -/
def matchOverallAt (s : Txt) : Option Nat := do
  let s ← stripCI ("overall".toList) s
  let ws := s.takeWhile isSpaceC
  if ws.isEmpty then none else do
  let s := s.dropWhile isSpaceC
  let s ← stripCI ("score".toList) s
  let s := dropColonSpaces s
  let (n, _) ← matchDigits1 s
  pure n

/-- First match of the `overall score: n` pattern. -/
def scoreOverallMatch (report : Txt) : Option Nat := findFirstMatch matchOverallAt report

/-- Match at one position the pattern `\*\*(\d+)\s*\/\s*100\*\*`. -/
def matchAnyScoreAt (s : Txt) : Option Nat := do
  let s ← stripCS ("**".toList) s
  let (n, s) ← matchDigits1 s
  let s := dropSpaces s
  let s ← stripCS ("/".toList) s
  let s := dropSpaces s
  let _ ← stripCS ("100**".toList) s
  pure n

/-- First match of the bolded `n/100` pattern. -/
def scoreAnyMatch (report : Txt) : Option Nat := findFirstMatch matchAnyScoreAt report

/-- Keyword test: the lower-cased report contains approval language. -/
def hasApprovalLang (report : Txt) : Bool :=
  includesTxt (lcTxt report) ("strong approval".toList) ||
  includesTxt (lcTxt report) ("approve".toList)

/-- Keyword test: the lower-cased report contains `rfe likely`. -/
def hasRfeLang (report : Txt) : Bool :=
  includesTxt (lcTxt report) ("rfe likely".toList)

/-- Keyword test: the lower-cased report contains denial/revision language. -/
def hasDenialLang (report : Txt) : Bool :=
  includesTxt (lcTxt report) ("denial".toList) ||
  includesTxt (lcTxt report) ("major revision".toList)

/-- `extractScore` of the source: ordered fallback chain for the overall score. -/
def extractScore (report : Txt) : Int :=
  match scoreTotalMatch report with
  | some n => (n : Int)
  | none =>
    match scoreOverallMatch report with
    | some n => (n : Int)
    | none =>
      match scoreAnyMatch report with
      | some n => (n : Int)
      | none =>
        if hasApprovalLang report then 75
        else if hasRfeLang report then 60
        else if hasDenialLang report then 40
        else 55

/-- `getOverallRating` verdicts. -/
inductive OverallRating
  | approve
  | rfeLikely
  | denialRisk
deriving DecidableEq

/-- `getOverallRating` of the source: step function of the overall score. -/
def getOverallRating (score : Int) : OverallRating :=
  if score ≥ 70 then .approve
  else if score ≥ 50 then .rfeLikely
  else .denialRisk

/-- Match at one position `approval\s+probability[:\s]*(\d+)\s*%` (flag `i`). -/
def matchApprovalProbAt (s : Txt) : Option Nat := do
  let s ← stripCI ("approval".toList) s
  let ws := s.takeWhile isSpaceC
  if ws.isEmpty then none else do
  let s := s.dropWhile isSpaceC
  let s ← stripCI ("probability".toList) s
  let s := dropColonSpaces s
  let (n, s) ← matchDigits1 s
  let s := dropSpaces s
  let _ ← stripCS ("%".toList) s
  pure n

/-- First match of the labelled approval-probability pattern. -/
def approvalProbMatch (report : Txt) : Option Nat :=
  findFirstMatch matchApprovalProbAt report

/-- Match at one position `rfe\s+probability[:\s]*(\d+)\s*%` (flag `i`). -/
def matchRfeProbAt (s : Txt) : Option Nat := do
  let s ← stripCI ("rfe".toList) s
  let ws := s.takeWhile isSpaceC
  if ws.isEmpty then none else do
  let s := s.dropWhile isSpaceC
  let s ← stripCI ("probability".toList) s
  let s := dropColonSpaces s
  let (n, s) ← matchDigits1 s
  let s := dropSpaces s
  let _ ← stripCS ("%".toList) s
  pure n

/-- First match of the labelled RFE-probability pattern. -/
def rfeProbMatch (report : Txt) : Option Nat :=
  findFirstMatch matchRfeProbAt report

/-- Match at one position `denial\s+risk[:\s]*(\d+)\s*%` (flag `i`). -/
def matchDenialRiskAt (s : Txt) : Option Nat := do
  let s ← stripCI ("denial".toList) s
  let ws := s.takeWhile isSpaceC
  if ws.isEmpty then none else do
  let s := s.dropWhile isSpaceC
  let s ← stripCI ("risk".toList) s
  let s := dropColonSpaces s
  let (n, s) ← matchDigits1 s
  let s := dropSpaces s
  let _ ← stripCS ("%".toList) s
  pure n

/-- First match of the labelled denial-risk pattern. -/
def denialRiskMatch (report : Txt) : Option Nat :=
  findFirstMatch matchDenialRiskAt report

/-- `calculateApprovalProb` of the source. -/
def calculateApprovalProb (score : Int) : Int :=
  if score ≥ 85 then 85
  else if score ≥ 70 then 65
  else if score ≥ 55 then 40
  else if score ≥ 40 then 20
  else 10

/-- `calculateRFEProb` of the source. -/
def calculateRFEProb (score : Int) : Int :=
  if score ≥ 85 then 10
  else if score ≥ 70 then 25
  else if score ≥ 55 then 45
  else if score ≥ 40 then 50
  else 40

/-- Result record of `extractProbabilities`. -/
structure Probs where
  approval : Int
  rfe : Int
  denial : Int
deriving DecidableEq

/-- `extractProbabilities` of the source. -/
def extractProbabilities (report : Txt) (overallScore : Int) : Probs :=
  let approval : Int :=
    match approvalProbMatch report with
    | some n => (n : Int)
    | none => calculateApprovalProb overallScore
  let rfe : Int :=
    match rfeProbMatch report with
    | some n => (n : Int)
    | none => calculateRFEProb overallScore
  let denial : Int :=
    match denialRiskMatch report with
    | some n => (n : Int)
    | none => 100 - approval - rfe
  { approval := approval, rfe := rfe, denial := max 0 denial }

/-- Visa categories. -/
inductive VisaType
  | P1A
  | O1A
  | O1B
  | EB1A
deriving DecidableEq

/-- Per-criterion categorical ratings. -/
inductive CriterionRating
  | strong
  | adequate
  | weak
  | insufficient
  | notClaimed
deriving DecidableEq

/-- Per-criterion qualitative evidence tiers. -/
inductive QualityTier
  | excellent
  | good
  | fair
  | poor
deriving DecidableEq

/-- Overall evidence assessments. -/
inductive OverallAssessment
  | strong
  | moderate
  | weak
  | insufficient
deriving DecidableEq

/-- One entry of `VISA_CRITERIA`. -/
structure CriterionDef where
  number : Nat
  letter : Txt
  name : Txt
deriving DecidableEq

/-- `VISA_CRITERIA` of the source types module. -/
def VISA_CRITERIA : VisaType → List CriterionDef
  | .O1A =>
    [ ⟨1, "A".toList, "Nationally or internationally recognized prizes or awards".toList⟩,
      ⟨2, "B".toList, "Membership in associations requiring outstanding achievements".toList⟩,
      ⟨3, "C".toList, "Published material about the beneficiary".toList⟩,
      ⟨4, "D".toList, "Participation as a judge of others' work".toList⟩,
      ⟨5, "E".toList, "Original contributions of major significance".toList⟩,
      ⟨6, "F".toList, "Authorship of scholarly articles".toList⟩,
      ⟨7, "G".toList, "Employment in a critical or essential capacity".toList⟩,
      ⟨8, "H".toList, "High salary or remuneration".toList⟩ ]
  | .O1B =>
    [ ⟨1, "A".toList, "Performed as a lead or starring participant".toList⟩,
      ⟨2, "B".toList, "Critical reviews or other published material".toList⟩,
      ⟨3, "C".toList, "Performed for organizations with distinguished reputation".toList⟩,
      ⟨4, "D".toList, "Record of major commercial or critically acclaimed successes".toList⟩,
      ⟨5, "E".toList, "Received significant recognition from organizations, critics, or experts".toList⟩,
      ⟨6, "F".toList, "High salary or substantial remuneration".toList⟩ ]
  | .P1A =>
    [ ⟨1, "A".toList, "International recognition in the sport".toList⟩,
      ⟨2, "B".toList, "Significant participation with a major United States sports league".toList⟩,
      ⟨3, "C".toList, "Significant participation in international competition".toList⟩,
      ⟨4, "D".toList, "Significant participation in a prior season with a major U.S. college".toList⟩,
      ⟨5, "E".toList, "Written statement from an official of the sport".toList⟩,
      ⟨6, "F".toList, "International ranking".toList⟩ ]
  | .EB1A =>
    [ ⟨1, "A".toList, "Nationally or internationally recognized prizes or awards".toList⟩,
      ⟨2, "B".toList, "Membership in associations requiring outstanding achievements".toList⟩,
      ⟨3, "C".toList, "Published material about the beneficiary".toList⟩,
      ⟨4, "D".toList, "Participation as a judge of others' work".toList⟩,
      ⟨5, "E".toList, "Original contributions of major significance".toList⟩,
      ⟨6, "F".toList, "Authorship of scholarly articles".toList⟩,
      ⟨7, "G".toList, "Display of work at artistic exhibitions".toList⟩,
      ⟨8, "H".toList, "Leading or critical role in distinguished organizations".toList⟩,
      ⟨9, "I".toList, "High salary or remuneration".toList⟩,
      ⟨10, "J".toList, "Commercial successes in the performing arts".toList⟩ ]

/-- `MINIMUM_CRITERIA` of the source types module. -/
def MINIMUM_CRITERIA : VisaType → Nat
  | .O1A => 3
  | .O1B => 3
  | .P1A => 2
  | .EB1A => 3

/-- One record of `criteriaScores` (the `CriterionScore` interface). -/
structure CriterionScore where
  criterionNumber : Nat
  criterionName : Txt
  rating : CriterionRating
  score : Int
  evidenceQuality : QualityTier
  officerConcerns : List Txt
  strengths : List Txt
  suggestions : List Txt
deriving DecidableEq

/-- `parseRating` of the source: substring containment checks, in order. -/
def parseRating (text : Txt) : CriterionRating :=
  let lower := lcTxt text
  if includesTxt lower ("strong".toList) then .strong
  else if includesTxt lower ("adequate".toList) then .adequate
  else if includesTxt lower ("weak".toList) then .weak
  else if includesTxt lower ("insufficient".toList) then .insufficient
  else .notClaimed

/-- `ratingToScore` of the source. -/
def ratingToScore : CriterionRating → Int
  | .strong => 85
  | .adequate => 70
  | .weak => 50
  | .insufficient => 30
  | .notClaimed => 0

/-- `scoreToQuality` of the source. -/
def scoreToQuality (score : Int) : QualityTier :=
  if score ≥ 80 then .excellent
  else if score ≥ 65 then .good
  else if score ≥ 45 then .fair
  else .poor

/-- Match the anchor `criterion\s*N` (flag `i`) at one position, returning the
rest of the text after the criterion number. -/
def matchCriterionAnchorAt (n : Nat) (s : Txt) : Option Txt := do
  let s ← stripCI ("criterion".toList) s
  let s := dropSpaces s
  stripCS (natDigits n) s

/-- Leftmost occurrence of the `criterion\s*N` anchor. -/
def findCriterionAnchor (n : Nat) (report : Txt) : Option Txt :=
  findFirstMatch (matchCriterionAnchorAt n) report

/-- Alternation `(?:my\s+rating|rating)` (flag `i`) at one position.  The two
branches start with distinct letters, so trying them in order is exact. -/
def matchRatingKw (s : Txt) : Option Txt :=
  match (do
    let s1 ← stripCI ("my".toList) s
    let ws := s1.takeWhile isSpaceC
    if ws.isEmpty then none else stripCI ("rating".toList) (s1.dropWhile isSpaceC)) with
  | some r => some r
  | none => stripCI ("rating".toList) s

/-- Tail `[:\s]*([^\n]+)`: greedy `[:\s]*` run, then a non-empty line capture;
if the run reaches the end of the text the engine backtracks one character at
a time, which yields the last non-newline character of the run. -/
def captureRestOfLine (s : Txt) : Option Txt :=
  let run := s.takeWhile isColonSpace
  let rest := s.dropWhile isColonSpace
  match rest with
  | [] =>
    match (run.reverse.find? fun c => !(c == '\n')) with
    | some c => some [c]
    | none => none
  | _ :: _ => some (rest.takeWhile fun c => !(c == '\n'))

/-- `(?:my\s+rating|rating)[:\s]*([^\n]+)` at one position. -/
def matchRatingTailAt (s : Txt) : Option Txt := do
  let s1 ← matchRatingKw s
  captureRestOfLine s1

/-- Capture of `criterion\s*N[^]*?(?:my\s+rating|rating)[:\s]*([^\n]+)` (flag
`i`): leftmost anchor, then leftmost keyword position with a viable tail. -/
def criterionRatingMatch (report : Txt) (n : Nat) : Option Txt :=
  match findCriterionAnchor n report with
  | none => none
  | some rest => findFirstMatch matchRatingTailAt rest

/-- Alternation `(?:evidence\s+score|score)` (flag `i`) at one position. -/
def matchScoreKw (s : Txt) : Option Txt :=
  match (do
    let s1 ← stripCI ("evidence".toList) s
    let ws := s1.takeWhile isSpaceC
    if ws.isEmpty then none else stripCI ("score".toList) (s1.dropWhile isSpaceC)) with
  | some r => some r
  | none => stripCI ("score".toList) s

/-- `(?:evidence\s+score|score)[:\s]*(\d+)` at one position. -/
def matchScoreTailAt (s : Txt) : Option Nat := do
  let s1 ← matchScoreKw s
  let (n, _) ← matchDigits1 (dropColonSpaces s1)
  pure n

/-- Capture of `criterion\s*N[^]*?(?:evidence\s+score|score)[:\s]*(\d+)` (flag `i`). -/
def criterionScoreMatch (report : Txt) (n : Nat) : Option Nat :=
  match findCriterionAnchor n report with
  | none => none
  | some rest => findFirstMatch matchScoreTailAt rest

/-- Lookahead `(?=\n\n|\*\*|$)` of the concerns pattern. -/
def concernsStop (s : Txt) : Bool :=
  match s with
  | [] => true
  | '\n' :: '\n' :: _ => true
  | '*' :: '*' :: _ => true
  | _ => false

/-- Lazy capture `([^#]+?)(?=\n\n|\*\*|$)`: the shortest non-empty hash-free
run whose end satisfies the lookahead; fails on a hash or when no stopping
point exists. -/
def lazyCaptureNoHash : Txt → Option Txt
  | [] => none
  | c :: t =>
    if c == '#' then none
    else if concernsStop t then some [c]
    else
      match lazyCaptureNoHash t with
      | some cap => some (c :: cap)
      | none => none

/-- Backtracking over the greedy `[:\s]*` run that precedes the lazy capture:
longest run first, giving characters back one at a time on failure. -/
def concernsBacktrack : Txt → Txt → Option Txt
  | rev, rest =>
    match lazyCaptureNoHash rest with
    | some cap => some cap
    | none =>
      match rev with
      | [] => none
      | c :: rev2 => concernsBacktrack rev2 (c :: rest)

/-- Alternation `(?:my\s+concerns|concerns)` (flag `i`) at one position. -/
def matchConcernsKw (s : Txt) : Option Txt :=
  match (do
    let s1 ← stripCI ("my".toList) s
    let ws := s1.takeWhile isSpaceC
    if ws.isEmpty then none else stripCI ("concerns".toList) (s1.dropWhile isSpaceC)) with
  | some r => some r
  | none => stripCI ("concerns".toList) s

/-- `(?:my\s+concerns|concerns)[:\s]*([^#]+?)(?=\n\n|\*\*|$)` at one position. -/
def matchConcernsTailAt (s : Txt) : Option Txt := do
  let s1 ← matchConcernsKw s
  let run := s1.takeWhile isColonSpace
  concernsBacktrack run.reverse (s1.dropWhile isColonSpace)

/-- Capture of the per-criterion concerns pattern
`criterion\s*N[^]*?(?:my\s+concerns|concerns)[:\s]*([^#]+?)(?=\n\n|\*\*|$)`. -/
def criterionConcernsMatch (report : Txt) (n : Nat) : Option Txt :=
  match findCriterionAnchor n report with
  | none => none
  | some rest => findFirstMatch matchConcernsTailAt rest

/-- Regex `/^[-*•]/` of `extractBulletPoints`. -/
def isBulletStart (t : Txt) : Bool :=
  match t with
  | c :: _ => c == '-' || c == '*' || c == '•'
  | [] => false

/-- Regex `/^\d+\./` of `extractBulletPoints`. -/
def isNumBullet (t : Txt) : Bool :=
  let ds := t.takeWhile isDigitC
  !ds.isEmpty &&
    match t.dropWhile isDigitC with
    | '.' :: _ => true
    | _ => false

/-- The character class `[-*•\d.]` of the marker-stripping regex. -/
def isMarkerChar (c : Char) : Bool :=
  c == '-' || c == '*' || c == '•' || isDigitC c || c == '.'

/-- JS `trimmed.replace(/^[-*•\d.]+\s*/, '')`: remove the maximal leading run
of bullet characters, digits and dots plus following whitespace; if the class
does not match at the start, the text is unchanged. -/
def stripMarker (t : Txt) : Txt :=
  let run := t.takeWhile isMarkerChar
  if run.isEmpty then t else dropSpaces (t.dropWhile isMarkerChar)

/-- The per-line loop body of `extractBulletPoints`, over split lines. -/
def extractBulletPointsLoop : List Txt → List Txt
  | [] => []
  | line :: rest =>
    let trimmed := trimTxt line
    if isBulletStart trimmed || isNumBullet trimmed then
      let content := trimTxt (stripMarker trimmed)
      if !content.isEmpty && content.length > 5 then
        content :: extractBulletPointsLoop rest
      else extractBulletPointsLoop rest
    else extractBulletPointsLoop rest

/-- `extractBulletPoints` of the source. -/
def extractBulletPoints (text : Txt) : List Txt :=
  extractBulletPointsLoop (splitLines text)

/-- Build one `criteriaScores` record (the loop body of `extractCriteriaScores`). -/
def buildCriterionScore (report : Txt) (c : CriterionDef) : CriterionScore :=
  let ratingM := criterionRatingMatch report c.number
  let scoreM := criterionScoreMatch report c.number
  let concernsM := criterionConcernsMatch report c.number
  let rating :=
    match ratingM with
    | some t => parseRating t
    | none => .notClaimed
  let score : Int :=
    match scoreM with
    | some n => (n : Int)
    | none => ratingToScore rating
  let concerns :=
    match concernsM with
    | some t => extractBulletPoints t
    | none => []
  { criterionNumber := c.number, criterionName := c.name, rating := rating,
    score := score, evidenceQuality := scoreToQuality score,
    officerConcerns := concerns, strengths := [], suggestions := [] }

/-- `extractCriteriaScores` of the source: one record per defined criterion,
in the defined order. -/
def extractCriteriaScores (report : Txt) (visaType : VisaType) : List CriterionScore :=
  (VISA_CRITERIA visaType).map (buildCriterionScore report)

/-- The `EvidenceQuality` interface. -/
structure EvidenceQuality where
  tier1Count : Int
  tier2Count : Int
  tier3Count : Int
  tier4Count : Int
  overallAssessment : OverallAssessment
  concerns : List Txt
deriving DecidableEq

/-- Match at one position `tier\s*K[^|]*\|\s*(\d+)` (flag `i`). -/
def matchTierAt (k : Nat) (s : Txt) : Option Nat := do
  let s ← stripCI ("tier".toList) s
  let s := dropSpaces s
  let s ← stripCS (natDigits k) s
  let s ← skipToPipe s
  let (n, _) ← matchDigits1 (dropSpaces s)
  pure n

/-- First match of the tier-`K` table-row pattern. -/
def tierMatch (k : Nat) (report : Txt) : Option Nat :=
  findFirstMatch (matchTierAt k) report

/-- Greedy capture `[:\s]*([^#]+)`: after the greedy `[:\s]*` run, a non-empty
hash-free run; when that run is empty the engine gives back the last run
character (never a hash), capturing exactly it. -/
def greedyCaptureNoHash (s : Txt) : Option Txt :=
  let run := s.takeWhile isColonSpace
  let rest := s.dropWhile isColonSpace
  let cap := rest.takeWhile fun c => !(c == '#')
  if cap.isEmpty then
    match run.getLast? with
    | some c => some [c]
    | none => none
  else some cap

/-- Same-line leftmost search: scanning stops once the gap would have to
include a line terminator (regex `.` does not match them). -/
def findFirstSameLine {α : Type} (f : Txt → Option α) : Txt → Option α
  | [] => f []
  | c :: t =>
    match f (c :: t) with
    | some a => some a
    | none => if isLineTerm c then none else findFirstSameLine f t

/-- Match at one position `evidence.*?concerns[:\s]*([^#]+)` (flag `i`); the
lazy `.*?` gap cannot cross a line terminator. -/
def matchEvidenceConcernsAt (s : Txt) : Option Txt := do
  let s1 ← stripCI ("evidence".toList) s
  findFirstSameLine
    (fun t => do
      let t1 ← stripCI ("concerns".toList) t
      greedyCaptureNoHash t1) s1

/-- First match of the evidence-concerns pattern. -/
def evidenceConcernsMatch (report : Txt) : Option Txt :=
  findFirstMatch matchEvidenceConcernsAt report

/-- `extractEvidenceQuality` of the source. -/
def extractEvidenceQuality (report : Txt) : EvidenceQuality :=
  let tier1Count : Int := match tierMatch 1 report with | some n => (n : Int) | none => 0
  let tier2Count : Int := match tierMatch 2 report with | some n => (n : Int) | none => 0
  let tier3Count : Int := match tierMatch 3 report with | some n => (n : Int) | none => 0
  let tier4Count : Int := match tierMatch 4 report with | some n => (n : Int) | none => 0
  let overallAssessment : OverallAssessment :=
    if tier1Count ≥ 5 then .strong
    else if tier1Count ≥ 3 ∨ tier2Count ≥ 5 then .moderate
    else if tier1Count ≥ 1 ∨ tier2Count ≥ 3 then .weak
    else .insufficient
  let concerns :=
    match evidenceConcernsMatch report with
    | some t => extractBulletPoints t
    | none => []
  { tier1Count := tier1Count, tier2Count := tier2Count, tier3Count := tier3Count,
    tier4Count := tier4Count, overallAssessment := overallAssessment,
    concerns := concerns }

/-- The `RFEPrediction` interface. -/
structure RFEPrediction where
  topic : Txt
  probability : Int
  officerPerspective : Txt
  suggestedEvidence : List Txt
deriving DecidableEq

/-- Gap of `[^]*?(?=##|$)`: everything up to the first `##` (or the end). -/
def upToHashes : Txt → Txt × Txt
  | [] => ([], [])
  | '#' :: '#' :: t => ([], '#' :: '#' :: t)
  | c :: t =>
    let (g, r) := upToHashes t
    (c :: g, r)

/-- Match at one position `rfe\s+predictions?[^]*?(?=##|$)` (flag `i`),
returning the whole matched text (the source uses `match[0]`). -/
def matchRfeSectionAt (s : Txt) : Option Txt := do
  let s1 ← stripCI ("rfe".toList) s
  let ws := s1.takeWhile isSpaceC
  if ws.isEmpty then none else do
  let s2 := s1.dropWhile isSpaceC
  let s3 ← stripCI ("prediction".toList) s2
  let s4 :=
    match s3 with
    | c :: t => if lcChar c == 's' then t else s3
    | [] => s3
  let gap := (upToHashes s4).1
  pure (s.take (s.length - s4.length + gap.length))

/-- First match of the RFE-predictions section pattern. -/
def rfeSectionMatch (report : Txt) : Option Txt :=
  findFirstMatch matchRfeSectionAt report

/-- Cell `\s*([^|]+)\|`: greedy whitespace, then a non-empty pipe-free capture
ending at the first pipe; when every character before that pipe is whitespace
the engine backtracks once and captures the last whitespace character. -/
def matchCellCapture (t : Txt) : Option (Txt × Txt) :=
  let cap := (t.dropWhile isSpaceC).takeWhile fun c => !(c == '|')
  let r2 := (t.dropWhile isSpaceC).dropWhile fun c => !(c == '|')
  match r2 with
  | '|' :: rest =>
    if cap.isEmpty then
      match (t.takeWhile isSpaceC).getLast? with
      | some c => some ([c], rest)
      | none => none
    else some (cap, rest)
  | _ => none

/-- One row of `\|\s*([^|]+)\|\s*(\d+)\s*%?\s*\|\s*([^|]+)\|` at one position,
returning the three captures and the rest of the text after the match. -/
def matchRowAt (s : Txt) : Option ((Txt × Nat × Txt) × Txt) := do
  let s1 ← stripCS ("|".toList) s
  let (c1, s2) ← matchCellCapture s1
  let (n, s4) ← matchDigits1 (dropSpaces s2)
  let s5 := dropSpaces s4
  let s6 := match s5 with | '%' :: t => t | _ => s5
  let s7 ← stripCS ("|".toList) (dropSpaces s6)
  let (c3, s9) ← matchCellCapture s7
  pure ((c1, n, c3), s9)

/-- The `exec` loop over the global row pattern: repeated leftmost matching,
resuming after each match (fuelled by the text length; every step strictly
shortens the text). -/
def scanRowsAux : Nat → Txt → List (Txt × Nat × Txt)
  | 0, _ => []
  | _ + 1, [] => []
  | f + 1, c :: t =>
    match matchRowAt (c :: t) with
    | some (row, rest) => row :: scanRowsAux f rest
    | none => scanRowsAux f t

/-- All matches of the table-row pattern, in order. -/
def scanRows (s : Txt) : List (Txt × Nat × Txt) := scanRowsAux s.length s

/-- `extractRFEPredictions` of the source. -/
def extractRFEPredictions (report : Txt) : List RFEPrediction :=
  match rfeSectionMatch report with
  | none => []
  | some sec =>
    (scanRows sec).filterMap fun row =>
      let topic := trimTxt row.1
      let description := trimTxt row.2.2
      if !topic.isEmpty && !includesTxt topic ("Topic".toList)
          && !includesTxt topic ("---".toList) then
        some { topic := topic, probability := (row.2.1 : Int),
               officerPerspective := description, suggestedEvidence := [] }
      else none

/-- Lookahead `(?=##|\n\n\n|$)` of the keyword-section pattern. -/
def sectionStop (s : Txt) : Bool :=
  match s with
  | [] => true
  | '#' :: '#' :: _ => true
  | '\n' :: '\n' :: '\n' :: _ => true
  | _ => false

/-- Gap of `[^]*?(?=##|\n\n\n|$)`: shortest run ending at a stopping point
(always succeeds, because the end of the text is a stopping point). -/
def upToSectionStop : Txt → Txt
  | [] => []
  | c :: t => if sectionStop (c :: t) then [] else c :: upToSectionStop t

/-- Match at one position `KEYWORD[^]*?(?=##|\n\n\n|$)` (flag `i`) for a
literal keyword, returning the whole matched text. -/
def matchKeywordSectionAt (kw : Txt) (s : Txt) : Option Txt := do
  let s1 ← stripCI kw s
  pure (s.take (kw.length + (upToSectionStop s1).length))

/-- `extractListItems` of the source: first keyword whose section yields a
non-empty bullet list wins. -/
def extractListItems (report : Txt) : List Txt → List Txt
  | [] => []
  | kw :: rest =>
    match findFirstMatch (matchKeywordSectionAt kw) report with
    | some sec =>
      let items := extractBulletPoints sec
      if items.isEmpty then extractListItems report rest else items
    | none => extractListItems report rest

/-- The three recommendation severities. -/
structure Recommendations where
  critical : List Txt
  high : List Txt
  recommended : List Txt
deriving DecidableEq

/-- `extractRecommendations` of the source. -/
def extractRecommendations (report : Txt) : Recommendations :=
  { critical := extractListItems report
      [ "CRITICAL".toList, "MUST DO".toList, "REQUIRED".toList ],
    high := extractListItems report
      [ "HIGH PRIORITY".toList, "SHOULD DO".toList, "IMPORTANT".toList ],
    recommended := extractListItems report
      [ "RECOMMENDED".toList, "WOULD HELP".toList, "SUGGESTED".toList ] }

/-- The structured parse result (the non-report fields of `RawScoringOutput`). -/
structure ParsedReport where
  overallScore : Int
  overallRating : OverallRating
  approvalProbability : Int
  rfeProbability : Int
  denialRisk : Int
  criteriaScores : List CriterionScore
  evidenceQuality : EvidenceQuality
  rfePredictions : List RFEPrediction
  weaknesses : List Txt
  strengths : List Txt
  recommendations : Recommendations
deriving DecidableEq

/-- `parseOfficerReport` of the source: total assembly of every extractor. -/
def parseOfficerReport (report : Txt) (visaType : VisaType) : ParsedReport :=
  let overallScore := extractScore report
  let overallRating := getOverallRating overallScore
  let probs := extractProbabilities report overallScore
  let criteriaScores := extractCriteriaScores report visaType
  let evidenceQuality := extractEvidenceQuality report
  let rfePredictions := extractRFEPredictions report
  let weaknesses := extractListItems report
    [ "RED FLAGS".toList, "CONCERNS".toList, "WEAKNESSES".toList, "MY CONCERNS".toList ]
  let strengths := extractListItems report
    [ "STRENGTHS".toList, "STRONG".toList, "ACKNOWLEDGE".toList ]
  let recommendations := extractRecommendations report
  { overallScore := overallScore, overallRating := overallRating,
    approvalProbability := probs.approval, rfeProbability := probs.rfe,
    denialRisk := probs.denial, criteriaScores := criteriaScores,
    evidenceQuality := evidenceQuality, rfePredictions := rfePredictions,
    weaknesses := weaknesses, strengths := strengths,
    recommendations := recommendations }

/-- The record produced for a criterion that the report never mentions. -/
def defaultCriterionRecord (c : CriterionDef) : CriterionScore :=
  { criterionNumber := c.number, criterionName := c.name, rating := .notClaimed,
    score := 0, evidenceQuality := .poor, officerConcerns := [],
    strengths := [], suggestions := [] }

/-- The fully-populated default result produced for an empty report. -/
def emptyReportResult (vt : VisaType) : ParsedReport :=
  { overallScore := 55, overallRating := .rfeLikely, approvalProbability := 40,
    rfeProbability := 45, denialRisk := 15,
    criteriaScores := (VISA_CRITERIA vt).map defaultCriterionRecord,
    evidenceQuality := { tier1Count := 0, tier2Count := 0, tier3Count := 0,
                         tier4Count := 0, overallAssessment := .insufficient,
                         concerns := [] },
    rfePredictions := [], weaknesses := [], strengths := [],
    recommendations := { critical := [], high := [], recommended := [] } }

/-- Modelled from the spec claim's words (claim C9): strip only the bullet
marker itself — one leading `-`, `*` or `•`, or the leading digits together
with the dot that follows them. -/
def specStripMarker (t : Txt) : Txt :=
  match t with
  | [] => []
  | c :: rest =>
    if c == '-' || c == '*' || c == '•' then rest
    else
      let ds := t.takeWhile isDigitC
      if !ds.isEmpty then
        match t.dropWhile isDigitC with
        | '.' :: r2 => r2
        | _ => t
      else t

/-- Modelled from the spec claim's words (claim C9): keep exactly the lines
that, after trimming, start with a bullet marker and whose content after
stripping that marker and trimming is longer than 5 characters. -/
def bulletPointsSpec (text : Txt) : List Txt :=
  (splitLines text).filterMap fun line =>
    let trimmed := trimTxt line
    if isBulletStart trimmed || isNumBullet trimmed then
      let content := trimTxt (specStripMarker trimmed)
      if 5 < content.length then some content else none
    else none

/-- Per-line characterisation of what the code actually keeps: the content is
what remains after removing the maximal leading run of bullet characters,
digits and dots plus following whitespace. -/
def amendedBulletOfLine (line : Txt) : Option Txt :=
  let trimmed := trimTxt line
  if isBulletStart trimmed || isNumBullet trimmed then
    let content := trimTxt (stripMarker trimmed)
    if !content.isEmpty && content.length > 5 then some content else none
  else none

/-- The first O-1A criterion, used by concrete witnesses. -/
def o1aCriterion1 : CriterionDef :=
  { number := 1, letter := "A".toList,
    name := "Nationally or internationally recognized prizes or awards".toList }

/-- The fourth O-1A criterion, used by the claim C6 witness. -/
def o1aCriterion4 : CriterionDef :=
  { number := 4, letter := "D".toList,
    name := "Participation as a judge of others' work".toList }

/-- The derived approval probability always lies in the score band table's range. -/
theorem calculateApprovalProb_bounds (s : Int) :
    0 ≤ calculateApprovalProb s ∧ calculateApprovalProb s ≤ 100 := by
  unfold calculateApprovalProb
  split_ifs <;> omega

/-- The derived RFE probability always lies in the score band table's range. -/
theorem calculateRFEProb_bounds (s : Int) :
    0 ≤ calculateRFEProb s ∧ calculateRFEProb s ≤ 100 := by
  unfold calculateRFEProb
  split_ifs <;> omega

/-- Every rating-derived numeric score lies in `[0, 100]`. -/
theorem ratingToScore_bounds (rt : CriterionRating) :
    0 ≤ ratingToScore rt ∧ ratingToScore rt ≤ 100 := by
  cases rt <;> exact ⟨by decide, by decide⟩

/-- Claim C1, counterexample: an overall score extracted directly from the
report text is returned without clamping, so a report stating
`overall score: 150` produces an `overallScore` above 100. -/
theorem claim1_counterexample :
    100 < (parseOfficerReport ("overall score: 150".toList) VisaType.O1A).overallScore := by
  decide

/-- Claim C1, amended: when the overall score, the three probabilities and
every per-criterion score are derived (their extraction patterns all fail)
rather than extracted from the text, every numeric field of the parsed
result lies in `[0, 100]`; values extracted directly from the text are
returned unclamped (only `denialRisk` is floored at 0). -/
theorem claim1_amended_bounds :
    ∀ (report : Txt) (vt : VisaType),
      scoreTotalMatch report = none → scoreOverallMatch report = none →
      scoreAnyMatch report = none → approvalProbMatch report = none →
      rfeProbMatch report = none → denialRiskMatch report = none →
      (∀ c ∈ VISA_CRITERIA vt, criterionScoreMatch report c.number = none) →
      (0 ≤ (parseOfficerReport report vt).overallScore ∧
        (parseOfficerReport report vt).overallScore ≤ 100) ∧
      (0 ≤ (parseOfficerReport report vt).approvalProbability ∧
        (parseOfficerReport report vt).approvalProbability ≤ 100) ∧
      (0 ≤ (parseOfficerReport report vt).rfeProbability ∧
        (parseOfficerReport report vt).rfeProbability ≤ 100) ∧
      (0 ≤ (parseOfficerReport report vt).denialRisk ∧
        (parseOfficerReport report vt).denialRisk ≤ 100) ∧
      ∀ cs ∈ (parseOfficerReport report vt).criteriaScores,
        0 ≤ cs.score ∧ cs.score ≤ 100 := by
  intro report vt h1 h2 h3 h4 h5 h6 h7
  have hscore : (parseOfficerReport report vt).overallScore =
      (if hasApprovalLang report then 75 else if hasRfeLang report then 60
       else if hasDenialLang report then 40 else (55 : Int)) := by
    show extractScore report = _
    unfold extractScore
    rw [h1, h2, h3]
  have happ : (parseOfficerReport report vt).approvalProbability =
      calculateApprovalProb (extractScore report) := by
    show (extractProbabilities report (extractScore report)).approval = _
    unfold extractProbabilities
    rw [h4]
  have hrfe : (parseOfficerReport report vt).rfeProbability =
      calculateRFEProb (extractScore report) := by
    show (extractProbabilities report (extractScore report)).rfe = _
    unfold extractProbabilities
    rw [h5]
  have hden : (parseOfficerReport report vt).denialRisk =
      max 0 (100 - calculateApprovalProb (extractScore report)
                 - calculateRFEProb (extractScore report)) := by
    show (extractProbabilities report (extractScore report)).denial = _
    unfold extractProbabilities
    rw [h4, h5, h6]
  refine ⟨?_, ?_, ?_, ?_, ?_⟩
  · rw [hscore]; split_ifs <;> omega
  · rw [happ]; exact calculateApprovalProb_bounds _
  · rw [hrfe]; exact calculateRFEProb_bounds _
  · rw [hden]
    have ha := calculateApprovalProb_bounds (extractScore report)
    have hr := calculateRFEProb_bounds (extractScore report)
    omega
  · intro cs hcs
    have hmap : (parseOfficerReport report vt).criteriaScores
        = (VISA_CRITERIA vt).map (buildCriterionScore report) := rfl
    rw [hmap] at hcs
    rcases List.mem_map.mp hcs with ⟨c, hc, rfl⟩
    have hsc : (buildCriterionScore report c).score
        = ratingToScore (buildCriterionScore report c).rating := by
      unfold buildCriterionScore
      rw [h7 c hc]
    rw [hsc]
    exact ratingToScore_bounds _

/-- Witness for the amended claim C1, at the empty report. -/
theorem claim1_amended_witness :
    0 ≤ (parseOfficerReport [] VisaType.O1A).overallScore ∧
    (parseOfficerReport [] VisaType.O1A).overallScore ≤ 100 :=
  (claim1_amended_bounds [] VisaType.O1A (by decide) (by decide) (by decide)
    (by decide) (by decide) (by decide) (by decide)).1

/-- Claim C2: the overall rating is `Approve` iff the score is at least 70,
`RFE Likely` iff it is in `[50, 70)`, `Denial Risk` iff below 50; and every
parsed result's `overallRating` is this function of its `overallScore`. -/
theorem claim2_rating_thresholds :
    (∀ s : Int,
      (getOverallRating s = OverallRating.approve ↔ 70 ≤ s) ∧
      (getOverallRating s = OverallRating.rfeLikely ↔ 50 ≤ s ∧ s < 70) ∧
      (getOverallRating s = OverallRating.denialRisk ↔ s < 50)) ∧
    ∀ (report : Txt) (vt : VisaType),
      (parseOfficerReport report vt).overallRating =
        getOverallRating (parseOfficerReport report vt).overallScore := by
  constructor
  · intro s
    unfold getOverallRating
    split_ifs with h1 h2 <;> simp_all
    all_goals omega
  · intro report vt
    rfl

/-- Claim C3: `criteriaScores` lists exactly the visa type's defined criteria,
in the defined order (O-1A has 8, EB-1A has 10); a criterion whose anchor
`criterion N` never matches in the report still yields the full default
record — score 0, rating `Not Claimed`, empty concerns. -/
theorem claim3_criteria_coverage :
    ∀ (report : Txt) (vt : VisaType),
      ((parseOfficerReport report vt).criteriaScores.map fun cs =>
          (cs.criterionNumber, cs.criterionName))
        = ((VISA_CRITERIA vt).map fun c => (c.number, c.name)) ∧
      (parseOfficerReport report vt).criteriaScores.length
        = (VISA_CRITERIA vt).length ∧
      (VISA_CRITERIA VisaType.O1A).length = 8 ∧
      (VISA_CRITERIA VisaType.EB1A).length = 10 ∧
      ∀ c ∈ VISA_CRITERIA vt,
        findCriterionAnchor c.number report = none →
        buildCriterionScore report c = defaultCriterionRecord c ∧
        defaultCriterionRecord c ∈ (parseOfficerReport report vt).criteriaScores := by
  intro report vt
  refine ⟨?_, ?_, by decide, by decide, ?_⟩
  · show ((VISA_CRITERIA vt).map (buildCriterionScore report)).map _ = _
    rw [List.map_map]
    rfl
  · show ((VISA_CRITERIA vt).map (buildCriterionScore report)).length = _
    rw [List.length_map]
  · intro c hc h
    have hb : buildCriterionScore report c = defaultCriterionRecord c := by
      unfold buildCriterionScore criterionRatingMatch criterionScoreMatch
        criterionConcernsMatch
      rw [h]
      rfl
    exact ⟨hb, hb ▸ List.mem_map_of_mem _ hc⟩

/-- Witness for claim C3, at the empty report and the first O-1A criterion. -/
theorem claim3_witness :
    buildCriterionScore [] o1aCriterion1 = defaultCriterionRecord o1aCriterion1 ∧
    defaultCriterionRecord o1aCriterion1
      ∈ (parseOfficerReport [] VisaType.O1A).criteriaScores :=
  (claim3_criteria_coverage [] VisaType.O1A).2.2.2.2 _ (by decide) (by decide)

/-- Claim C4: when no explicit denial-risk percentage matches, the returned
denial risk is `max 0 (100 − approval − rfe)` over the values returned for
the same report; when one matches, its value is returned instead. -/
theorem claim4_denial_complement :
    ∀ (report : Txt) (s : Int),
      (denialRiskMatch report = none →
        (extractProbabilities report s).denial =
          max 0 (100 - (extractProbabilities report s).approval
                     - (extractProbabilities report s).rfe)) ∧
      ∀ n : Nat, denialRiskMatch report = some n →
        (extractProbabilities report s).denial = (n : Int) := by
  intro report s
  constructor
  · intro h
    unfold extractProbabilities
    rw [h]
  · intro n h
    unfold extractProbabilities
    rw [h]
    show max 0 (n : Int) = (n : Int)
    omega

/-- Witness for claim C4: empty report (derived complement, equal to 15 with
score 55), and a report with an explicit `denial risk: 90%`. -/
theorem claim4_witness :
    (extractProbabilities [] 55).denial =
      max 0 (100 - (extractProbabilities [] 55).approval
                 - (extractProbabilities [] 55).rfe) ∧
    (extractProbabilities ("denial risk: 90%".toList) 55).denial = (90 : Int) :=
  ⟨(claim4_denial_complement [] 55).1 (by decide),
   (claim4_denial_complement ("denial risk: 90%".toList) 55).2 90 (by decide)⟩

/-- Claim C5: the overall-score extractor always yields an integer; when all
three numeric patterns fail, it returns 75 for approval language, 60 for RFE
language, 40 for denial/revision language, else the neutral 55; a report with
no recognizable score containing `approve` yields 75 and rating `Approve`. -/
theorem claim5_fallback_chain :
    (∀ report : Txt,
      scoreTotalMatch report = none → scoreOverallMatch report = none →
      scoreAnyMatch report = none →
      extractScore report =
        (if hasApprovalLang report then 75
         else if hasRfeLang report then 60
         else if hasDenialLang report then 40
         else 55)) ∧
    extractScore ("I would approve this petition".toList) = 75 ∧
    getOverallRating (extractScore ("I would approve this petition".toList))
      = OverallRating.approve := by
  refine ⟨?_, by decide, by decide⟩
  intro report h1 h2 h3
  unfold extractScore
  rw [h1, h2, h3]

/-- Witness for claim C5, at a report with no numeric score at all. -/
theorem claim5_witness :
    extractScore ("I would approve this petition".toList) =
      (if hasApprovalLang ("I would approve this petition".toList) then 75
       else if hasRfeLang ("I would approve this petition".toList) then 60
       else if hasDenialLang ("I would approve this petition".toList) then 40
       else 55) :=
  claim5_fallback_chain.1 ("I would approve this petition".toList)
    (by decide) (by decide) (by decide)

/-- Claim C6: a criterion with a categorical rating but no explicit numeric
evidence score gets its score from the fixed mapping Strong 85 / Adequate 70 /
Weak 50 / Insufficient 30 / Not Claimed 0, and its qualitative tier from the
fixed bands 80/65/45; a criterion-4 section saying `My Rating: Weak` with no
explicit score yields criterion-4 score 50 and tier `Fair`. -/
theorem claim6_rating_mapping :
    ratingToScore CriterionRating.strong = 85 ∧
    ratingToScore CriterionRating.adequate = 70 ∧
    ratingToScore CriterionRating.weak = 50 ∧
    ratingToScore CriterionRating.insufficient = 30 ∧
    ratingToScore CriterionRating.notClaimed = 0 ∧
    (∀ s : Int,
      (80 ≤ s → scoreToQuality s = QualityTier.excellent) ∧
      (65 ≤ s → s < 80 → scoreToQuality s = QualityTier.good) ∧
      (45 ≤ s → s < 65 → scoreToQuality s = QualityTier.fair) ∧
      (s < 45 → scoreToQuality s = QualityTier.poor)) ∧
    (∀ (report : Txt) (c : CriterionDef),
      criterionScoreMatch report c.number = none →
      (buildCriterionScore report c).score
          = ratingToScore (buildCriterionScore report c).rating ∧
      (buildCriterionScore report c).evidenceQuality
          = scoreToQuality ((buildCriterionScore report c).score)) ∧
    ((parseOfficerReport ("### Criterion 4: Judging\nMy Rating: Weak\n".toList)
        VisaType.O1A).criteriaScores.map fun cs =>
          (cs.criterionNumber, cs.rating, cs.score, cs.evidenceQuality))
      = [(1, CriterionRating.notClaimed, 0, QualityTier.poor),
         (2, CriterionRating.notClaimed, 0, QualityTier.poor),
         (3, CriterionRating.notClaimed, 0, QualityTier.poor),
         (4, CriterionRating.weak, 50, QualityTier.fair),
         (5, CriterionRating.notClaimed, 0, QualityTier.poor),
         (6, CriterionRating.notClaimed, 0, QualityTier.poor),
         (7, CriterionRating.notClaimed, 0, QualityTier.poor),
         (8, CriterionRating.notClaimed, 0, QualityTier.poor)] := by
  refine ⟨rfl, rfl, rfl, rfl, rfl, ?_, ?_, by decide⟩
  · intro s
    unfold scoreToQuality
    refine ⟨fun h1 => ?_, fun h1 h2 => ?_, fun h1 h2 => ?_, fun h1 => ?_⟩ <;>
      split_ifs <;> first | rfl | omega
  · intro report c h
    unfold buildCriterionScore
    rw [h]
    exact ⟨rfl, rfl⟩

/-- Witness for claim C6, at the criterion-4 `My Rating: Weak` report. -/
theorem claim6_witness :
    scoreToQuality 50 = QualityTier.fair ∧
    (buildCriterionScore ("### Criterion 4: Judging\nMy Rating: Weak\n".toList)
        o1aCriterion4).score
      = ratingToScore (buildCriterionScore
          ("### Criterion 4: Judging\nMy Rating: Weak\n".toList) o1aCriterion4).rating :=
  ⟨(claim6_rating_mapping.2.2.2.2.2.1 50).2.2.1 (by decide) (by decide),
   (claim6_rating_mapping.2.2.2.2.2.2.1
      ("### Criterion 4: Judging\nMy Rating: Weak\n".toList) o1aCriterion4 (by decide)).1⟩

/-- Claim C7: tier counts whose table-row pattern fails default to 0, and the
overall assessment follows the prioritized thresholds; a report whose only
tier mention is `Tier 1 | 6` yields counts (6, 0, 0, 0) and `Strong`. -/
theorem claim7_evidence_tiers :
    (∀ report : Txt,
      (tierMatch 1 report = none → (extractEvidenceQuality report).tier1Count = 0) ∧
      (tierMatch 2 report = none → (extractEvidenceQuality report).tier2Count = 0) ∧
      (tierMatch 3 report = none → (extractEvidenceQuality report).tier3Count = 0) ∧
      (tierMatch 4 report = none → (extractEvidenceQuality report).tier4Count = 0) ∧
      (5 ≤ (extractEvidenceQuality report).tier1Count →
        (extractEvidenceQuality report).overallAssessment = OverallAssessment.strong) ∧
      ((extractEvidenceQuality report).tier1Count < 5 →
        3 ≤ (extractEvidenceQuality report).tier1Count
          ∨ 5 ≤ (extractEvidenceQuality report).tier2Count →
        (extractEvidenceQuality report).overallAssessment = OverallAssessment.moderate) ∧
      ((extractEvidenceQuality report).tier1Count < 3 →
        (extractEvidenceQuality report).tier2Count < 5 →
        1 ≤ (extractEvidenceQuality report).tier1Count
          ∨ 3 ≤ (extractEvidenceQuality report).tier2Count →
        (extractEvidenceQuality report).overallAssessment = OverallAssessment.weak) ∧
      ((extractEvidenceQuality report).tier1Count < 1 →
        (extractEvidenceQuality report).tier2Count < 3 →
        (extractEvidenceQuality report).overallAssessment = OverallAssessment.insufficient)) ∧
    extractEvidenceQuality ("Tier 1 | 6".toList) =
      { tier1Count := 6, tier2Count := 0, tier3Count := 0, tier4Count := 0,
        overallAssessment := OverallAssessment.strong, concerns := [] } := by
  refine ⟨?_, by decide⟩
  intro report
  have ha : (extractEvidenceQuality report).overallAssessment =
      (if 5 ≤ (extractEvidenceQuality report).tier1Count then OverallAssessment.strong
       else if 3 ≤ (extractEvidenceQuality report).tier1Count
              ∨ 5 ≤ (extractEvidenceQuality report).tier2Count then OverallAssessment.moderate
       else if 1 ≤ (extractEvidenceQuality report).tier1Count
              ∨ 3 ≤ (extractEvidenceQuality report).tier2Count then OverallAssessment.weak
       else OverallAssessment.insufficient) := rfl
  refine ⟨?_, ?_, ?_, ?_, ?_, ?_, ?_, ?_⟩
  · intro h
    unfold extractEvidenceQuality
    rw [h]
  · intro h
    unfold extractEvidenceQuality
    rw [h]
  · intro h
    unfold extractEvidenceQuality
    rw [h]
  · intro h
    unfold extractEvidenceQuality
    rw [h]
  · intro h1
    rw [ha, if_pos h1]
  · intro h1 h2
    rw [ha]
    split_ifs <;> first | rfl | omega
  · intro h1 h2 h3
    rw [ha]
    split_ifs <;> first | rfl | omega
  · intro h1 h2
    rw [ha]
    split_ifs <;> first | rfl | omega

/-- Witness for claim C7, at the `Tier 1 | 6` report. -/
theorem claim7_witness :
    (extractEvidenceQuality ("Tier 1 | 6".toList)).overallAssessment
      = OverallAssessment.strong :=
  (claim7_evidence_tiers.1 ("Tier 1 | 6".toList)).2.2.2.2.1 (by decide)

/-- Claim C8: the parser is a total function — in this embedding every
extractor is total by construction, mirroring the source where each regex
failure takes a default branch — and on any input it yields a fully
populated record; on the empty (or any unmatchable) report every field takes
its safe default (neutral score 55, derived probabilities, one `Not Claimed`
record per defined criterion, zero tier counts, empty lists). -/
theorem claim8_parser_total_defaults :
    (∀ (report : Txt) (vt : VisaType),
      (parseOfficerReport report vt).criteriaScores.length
        = (VISA_CRITERIA vt).length) ∧
    ∀ vt : VisaType, parseOfficerReport [] vt = emptyReportResult vt := by
  constructor
  · intro report vt
    show ((VISA_CRITERIA vt).map (buildCriterionScore report)).length = _
    rw [List.length_map]
  · intro vt
    cases vt <;> decide

/-- Claim C9, counterexample: the code strips the maximal leading run of
`[-*•\d.]` characters, not only the bullet marker, so the line `-123456`
yields empty content and is discarded, while the claim's reading (strip the
marker `-`, leaving `123456` of length 6 > 5) would keep it. -/
theorem claim9_counterexample :
    extractBulletPoints ("-123456".toList) = [] ∧
    bulletPointsSpec ("-123456".toList) = ["123456".toList] := by
  exact ⟨by decide, by decide⟩

/-- Claim C9, amended: bullet extraction keeps exactly the lines that, after
trimming, start with `-`, `*`, `•` or digits followed by a dot, and whose
content after removing the maximal leading run of bullet characters, digits
and dots (plus following whitespace) and trimming is longer than 5
characters; `- ok` is discarded and
`- Insufficient documentation of criterion 3` is kept. -/
theorem claim9_amended :
    (∀ text : Txt,
      extractBulletPoints text = (splitLines text).filterMap amendedBulletOfLine) ∧
    extractBulletPoints ("- ok".toList) = [] ∧
    extractBulletPoints ("- Insufficient documentation of criterion 3".toList)
      = ["Insufficient documentation of criterion 3".toList] := by
  refine ⟨fun text => ?_, by decide, by decide⟩
  unfold extractBulletPoints
  generalize splitLines text = lines
  induction lines with
  | nil => rfl
  | cons l ls ih =>
    simp only [extractBulletPointsLoop, List.filterMap_cons, amendedBulletOfLine]
    split_ifs <;> simp [ih]

/-- Claim C10: every record of `criteriaScores` has empty `strengths` and
`suggestions` — the parser declares but never populates these fields. -/
theorem claim10_fields_empty :
    ∀ (report : Txt) (vt : VisaType) (cs : CriterionScore),
      cs ∈ (parseOfficerReport report vt).criteriaScores →
      cs.strengths = [] ∧ cs.suggestions = [] := by
  intro report vt cs hcs
  have hmap : (parseOfficerReport report vt).criteriaScores
      = (VISA_CRITERIA vt).map (buildCriterionScore report) := rfl
  rw [hmap] at hcs
  rcases List.mem_map.mp hcs with ⟨c, _, rfl⟩
  exact ⟨rfl, rfl⟩

/-- Witness for claim C10, at the empty report's first O-1A record. -/
theorem claim10_witness :
    (defaultCriterionRecord o1aCriterion1).strengths = [] ∧
    (defaultCriterionRecord o1aCriterion1).suggestions = [] :=
  claim10_fields_empty [] VisaType.O1A _ (by decide)
